/-
Verification of the campaign analytics pipeline (`analyze_campaign_data` in
`app.py`) against its specification.

The table is modelled as a header (the list of column names) together with the
list of rows; a row carries the four numeric columns (`Impressions`, `Clicks`,
`Conversions` as naturals, `Spend` as an exact rational) and the two name
columns.  Pandas column access raises `KeyError` when the header lacks the
column, so every column access in the model is guarded by a membership test on
the header.  Pandas float division of a column is modelled by the type `PVal`
(finite rational, positive infinity, or NaN): `Conversions / Spend` yields
`inf` when `Spend = 0` and `Conversions != 0`, `nan` when both are `0`, and a
finite rational otherwise.  `Series.idxmax` returns the first index attaining
the maximum, skipping NaN entries, and raises on an empty (or all-NaN) series;
it is modelled by `idxmaxS` / `idxmaxP` returning `Option Nat`.

The body of `analyze_campaign_data` sits inside `try/except Exception`; the
model splits it into `tryBody`, whose outcome is either a returned pair or a
raised exception (`TryOutcome`), and the wrapper `analyze_campaign_data`,
which maps a raised exception to the generic `Data Processing Error` value
exactly as the `except` clause does.  The mutation `df['ROAS_Proxy'] = ...`
is modelled by state passing: the function returns the post-call table (with
the attached proxy column) alongside the `(stats, error)` pair.

Python's fixed-point string formatting (`f"{x:,.2f}"` etc.) is modelled over
exact rationals with round-half-even and comma grouping of the integer part.

The source's numeric columns are int64 and float64; the model idealises them
as exact naturals and rationals, and sums and formats them exactly.
Properties that depend on IEEE-754 rounding during float accumulation or on
formatting the nearest binary double are outside this model; the concrete
tables used below are chosen so that exact and float evaluation agree.
-/
import Mathlib

/-- One row of the input table.  The four numeric columns follow the data
model: counts are non-negative integers, `Spend` is an exact decimal
(rational). -/
structure Row where
  Impressions : ℕ
  Clicks : ℕ
  Spend : ℚ
  Conversions : ℕ
  Campaign_Name : String
  Platform : String
deriving DecidableEq, Repr

/-- Default row used only to give `List.getD` a placeholder; every access is
guarded by an in-bounds proof or happens at a valid index. -/
def dRow : Row := ⟨0, 0, 0, 0, "", ""⟩

/-- A pandas float value as produced by column division: a finite rational,
positive infinity, or NaN. -/
inductive PVal where
  | fin (q : ℚ)
  | inf
  | nan
deriving DecidableEq, Repr

/-- Pandas division `Conversions / Spend` of a non-negative integer column by
a rational column: `c / 0 = inf` for `c != 0`, `0 / 0 = NaN`, otherwise the
exact quotient. -/
def pdiv (c : ℕ) (s : ℚ) : PVal :=
  if s = 0 then (if c = 0 then PVal.nan else PVal.inf) else PVal.fin ((c : ℚ) / s)

/-- Strict `>` on pandas float values (any comparison with NaN is false;
`inf` exceeds every finite value and is not greater than itself). -/
def pgt : PVal → PVal → Bool
  | PVal.nan, _ => false
  | _, PVal.nan => false
  | PVal.inf, PVal.inf => false
  | PVal.inf, _ => true
  | _, PVal.inf => false
  | PVal.fin a, PVal.fin b => decide (b < a)

/-- `Series.idxmax` on a NaN-free series: the index of the first occurrence
of the maximum, `none` for the empty series (pandas raises
`ValueError: attempt to get argmax of an empty sequence`). -/
def idxmaxS {α : Type} [LinearOrder α] (d : α) : List α → Option ℕ
  | [] => none
  | x :: rest =>
    match idxmaxS d rest with
    | none => some 0
    | some j => if x < rest.getD j d then some (j + 1) else some 0

/-- `Series.idxmax` on a float series: NaN entries are skipped; the result is
the first index attaining the maximum of the remaining entries, `none` when
the series is empty or all-NaN.  Pandas raises in both cases, but with
different errors: the empty-sequence `ValueError` for an empty series, and
an all-NA failure for a non-empty all-NaN one (see `allNaMsg`). -/
def idxmaxP : List PVal → Option ℕ
  | [] => none
  | x :: rest =>
    match idxmaxP rest with
    | none => if x = PVal.nan then none else some 0
    | some j =>
      if x = PVal.nan then some (j + 1)
      else if pgt (rest.getD j PVal.nan) x then some (j + 1) else some 0

/-- The input table: the header (list of column names) and the rows.  The
`roas` field holds the `ROAS_Proxy` column once line 40 of `app.py` has
attached it to the frame (``none`` before the call). -/
structure Table where
  cols : List String
  rows : List Row
  roas : Option (List PVal)
deriving DecidableEq, Repr

/-- `required_cols = ['Impressions', 'Clicks', 'Spend', 'Conversions']`
(line 24 of `app.py`). -/
def requiredCols : List String := ["Impressions", "Clicks", "Spend", "Conversions"]

/-- `all(col in df.columns for col in required_cols)` (line 25). -/
def validateB (df : Table) : Bool :=
  requiredCols.all (fun c => decide (c ∈ df.cols))

/-- The `Conversions` column as a series. -/
def convList (df : Table) : List ℕ := df.rows.map Row.Conversions

/-- `df['Conversions'] / df['Spend']` — the `ROAS_Proxy` series (line 40). -/
def roasCol (df : Table) : List PVal :=
  df.rows.map (fun r => pdiv r.Conversions r.Spend)

/-- The table after `df['ROAS_Proxy'] = df['Conversions'] / df['Spend']`
(line 40): the caller's frame with the proxy column attached. -/
def attachRoas (df : Table) : Table := { df with roas := some (roasCol df) }

/-- `total_spend = df['Spend'].sum()` (line 29); the float64 accumulation of
the source is idealised as the exact rational sum (see the header note). -/
def total_spend (df : Table) : ℚ := (df.rows.map Row.Spend).sum

/-- `total_clicks = df['Clicks'].sum()` (line 30). -/
def total_clicks (df : Table) : ℕ := (df.rows.map Row.Clicks).sum

/-- `total_conversions = df['Conversions'].sum()` (line 31). -/
def total_conversions (df : Table) : ℕ := (df.rows.map Row.Conversions).sum

/-- `total_impressions = df['Impressions'].sum()` (line 32). -/
def total_impressions (df : Table) : ℕ := (df.rows.map Row.Impressions).sum

/-- `ctr = (total_clicks / total_impressions * 100) if total_impressions > 0 else 0`
(line 35). -/
def ctr (df : Table) : ℚ :=
  if 0 < total_impressions df
  then ((total_clicks df : ℚ) / (total_impressions df : ℚ)) * 100 else 0

/-- `cpa = total_spend / total_conversions if total_conversions > 0 else 0`
(line 36). -/
def cpa (df : Table) : ℚ :=
  if 0 < total_conversions df
  then total_spend df / (total_conversions df : ℚ) else 0

/-- `cpc = total_spend / total_clicks if total_clicks > 0 else 0` (line 37).
The value is computed by the source but never placed in the stats dict. -/
def cpc (df : Table) : ℚ :=
  if 0 < total_clicks df
  then total_spend df / (total_clicks df : ℚ) else 0

/-- Floor of a rational (self-contained, kernel-computable). -/
def ratFloor (q : ℚ) : ℤ := Int.fdiv q.num (q.den : ℤ)

/-- Round to nearest integer, ties to even — the rounding Python applies when
formatting with a fixed number of decimals. -/
def roundHalfEven (q : ℚ) : ℤ :=
  let f := ratFloor q
  let r := q - (f : ℚ)
  if r < 1 / 2 then f
  else if (1 : ℚ) / 2 < r then f + 1
  else if f % 2 = 0 then f else f + 1

/-- Left-pad a two-digit fraction part with a zero. -/
def pad2 (n : ℕ) : String := if n < 10 then "0" ++ toString n else toString n

/-- Insert a comma after every three characters of a reversed digit list. -/
def groupRev : List Char → List Char
  | a :: b :: c :: d :: rest => a :: b :: c :: ',' :: groupRev (d :: rest)
  | cs => cs

/-- Render a natural with thousands separators (Python's `{:,}`). -/
def commaGroup (n : ℕ) : String :=
  String.mk ((groupRev (toString n).data.reverse).reverse)

/-- Python's `{:.2f}` on an exact rational. -/
def fmtFixed2 (q : ℚ) : String :=
  let n := roundHalfEven (q * 100)
  (if n < 0 then "-" else "") ++ toString (n.natAbs / 100) ++ "." ++ pad2 (n.natAbs % 100)

/-- Python's `${:,.2f}` (line 45), applied to the exact rational where the
source formats the nearest binary double; the two agree on the concrete
values used in this development. -/
def fmtMoneyComma (q : ℚ) : String :=
  let n := roundHalfEven (q * 100)
  "$" ++ (if n < 0 then "-" else "") ++ commaGroup (n.natAbs / 100) ++ "." ++ pad2 (n.natAbs % 100)

/-- Python's `{:,}` on a natural (line 46). -/
def fmtComma (n : ℕ) : String := commaGroup n

/-- A value of the returned stats mapping.  The source only ever produces
`str` values (formatted strings); the `num` constructor represents the raw
numeric alternative the specification's output contract describes, so that
the two can be compared. -/
inductive CellVal where
  | str (s : String)
  | num (q : ℚ)
deriving DecidableEq, Repr

/-- The `stats` dictionary: an insertion-ordered list of key/value pairs. -/
abbrev StatsDict := List (String × CellVal)

/-- The `stats` dict literal of lines 44–51 of `app.py`. -/
def mkStats (ts : ℚ) (tc : ℕ) (c a : ℚ) (top best : String) : StatsDict :=
  [("Total Spend", CellVal.str (fmtMoneyComma ts)),
   ("Total Conversions", CellVal.str (fmtComma tc)),
   ("Global CTR", CellVal.str (fmtFixed2 c ++ "%")),
   ("Avg CPA", CellVal.str ("$" ++ fmtFixed2 a)),
   ("Top Campaign", CellVal.str top),
   ("Best Platform", CellVal.str best)]

/-- The error values `analyze_campaign_data` can return: the missing-columns
message of line 26, or the generic `Data Processing Error` of line 55
carrying the cause of the caught exception. -/
inductive AnalyzeError where
  | missingColumns
  | processingError (cause : String)
deriving DecidableEq, Repr

/-- The user-facing error string. -/
def AnalyzeError.message : AnalyzeError → String
  | AnalyzeError.missingColumns => "Missing required columns. Please upload a valid AdTech CSV."
  | AnalyzeError.processingError c => "Data Processing Error: " ++ c

/-- Outcome of the `try` body: a returned `(stats, error)` pair, or a raised
exception carrying its rendered cause. -/
inductive TryOutcome where
  | ret (v : Option StatsDict × Option AnalyzeError)
  | exc (e : String)
deriving DecidableEq, Repr

/-- Message of the `ValueError` pandas raises for `idxmax` over an empty
series. -/
def argmaxEmptyMsg : String := "attempt to get argmax of an empty sequence"

/-- Cause recorded for `idxmax` over a non-empty all-NaN series.  Pandas 3.x
raises `ValueError: Encountered all NA values` at the `idxmax` call; in
pandas 2.x `idxmax` instead returns NaN and the subsequent `df.loc[nan]`
lookup raises a `KeyError`.  Either way a raised exception, with a cause
different from the empty-sequence message, reaches the handler from this
point of the body; the model records the 3.x cause. -/
def allNaMsg : String := "Encountered all NA values"

/-- Cause of the `KeyError` for a missing `Campaign_Name` column (Python
renders the key in quotes; the quotes are omitted here). -/
def keyErrCampaign : String := "KeyError: Campaign_Name"

/-- Cause of the `KeyError` for a missing `Platform` column. -/
def keyErrPlatform : String := "KeyError: Platform"

/-- The `try` body of `analyze_campaign_data` (lines 23–52): validation,
aggregation, derived metrics, proxy attachment and the two `idxmax`
selections, in source order.  The first component is the table as the caller
sees it afterwards; the second the return value or the raised exception. -/
def tryBody (df : Table) : Table × TryOutcome :=
  if validateB df = true then
    match idxmaxS 0 (convList df) with
    | none => (attachRoas df, TryOutcome.exc argmaxEmptyMsg)
    | some i =>
      if "Campaign_Name" ∈ df.cols then
        match idxmaxP (roasCol df) with
        | none => (attachRoas df, TryOutcome.exc allNaMsg)
        | some j =>
          if "Platform" ∈ df.cols then
            (attachRoas df,
              TryOutcome.ret
                (some (mkStats (total_spend df) (total_conversions df) (ctr df) (cpa df)
                  ((df.rows.getD i dRow).Campaign_Name) ((df.rows.getD j dRow).Platform)),
                 none))
          else (attachRoas df, TryOutcome.exc keyErrPlatform)
      else (attachRoas df, TryOutcome.exc keyErrCampaign)
  else (df, TryOutcome.ret (none, some AnalyzeError.missingColumns))

/-- The `except Exception` clause (lines 54–55): a returned pair passes
through, a raised exception becomes the generic processing error wrapping
its cause. -/
def wrapExcept : TryOutcome → Option StatsDict × Option AnalyzeError
  | TryOutcome.ret v => v
  | TryOutcome.exc e => (none, some (AnalyzeError.processingError e))

/-- `analyze_campaign_data` (lines 18–55): the `try` body with the `except`
clause of lines 54–55 turning any raised exception into the generic
processing error.  Returns the post-call table and the `(stats, error)`
pair. -/
def analyze_campaign_data (df : Table) : Table × (Option StatsDict × Option AnalyzeError) :=
  ((tryBody df).1, wrapExcept (tryBody df).2)

/-! ### Concrete tables used by witnesses and counterexamples -/

/-- The full header of a well-formed input file. -/
def allCols : List String :=
  ["Impressions", "Clicks", "Spend", "Conversions", "Campaign_Name", "Platform"]

/-- First row of the specification's worked scenario. -/
def rowA : Row := ⟨1000, 50, 100, 10, "A", "X"⟩

/-- Second row of the specification's worked scenario. -/
def rowB : Row := ⟨2000, 100, 50, 20, "B", "Y"⟩

/-- The specification's worked two-row scenario table. -/
def tS : Table := ⟨allCols, [rowA, rowB], none⟩

/-- The stats dict `analyze_campaign_data` returns on the scenario table. -/
def dS : StatsDict := ((analyze_campaign_data tS).2.1).getD []

/-- A table with one positive-spend row and one zero-spend row with positive
conversions. -/
def tC1a : Table := ⟨allCols, [⟨0, 0, 100, 10, "c1", "X"⟩, ⟨0, 0, 0, 1, "c2", "Y"⟩], none⟩

/-- The stats dict on `tC1a`. -/
def dC1 : StatsDict := ((analyze_campaign_data tC1a).2.1).getD []

/-- A table in which every row has zero spend; the first row also has zero
conversions. -/
def tC1b : Table := ⟨allCols, [⟨0, 0, 0, 0, "c1", "A"⟩, ⟨0, 0, 0, 1, "c2", "B"⟩], none⟩

/-- The stats dict on `tC1b`. -/
def dC1b : StatsDict := ((analyze_campaign_data tC1b).2.1).getD []

/-- The empty table with the full header. -/
def tEmpty : Table := ⟨allCols, [], none⟩

/-- A one-row table whose single efficiency value is NaN (zero spend, zero
conversions). -/
def tAllNan : Table := ⟨allCols, [⟨0, 0, 0, 0, "c", "P"⟩], none⟩

/-- A table whose header lacks the required `Spend` column. -/
def tMissing : Table := ⟨["Impressions", "Clicks", "Conversions"], [], none⟩

/-- A table with the four numeric columns but neither `Campaign_Name` nor
`Platform`. -/
def tNoName : Table := ⟨["Impressions", "Clicks", "Spend", "Conversions"], [⟨1, 1, 1, 1, "", "P"⟩], none⟩

/-- A table with two rows tied at the maximal `Conversions` value. -/
def tTie : Table := ⟨allCols, [⟨10, 1, 5, 7, "A", "X"⟩, ⟨10, 1, 5, 7, "B", "Y"⟩], none⟩

/-- The stats dict on `tTie`. -/
def dTie : StatsDict := ((analyze_campaign_data tTie).2.1).getD []

/-! ### Helper lemmas about the selection primitives -/

/-- `idxmax` never fails on a non-empty NaN-free series. -/
lemma idxmaxS_cons_isSome {α : Type} [LinearOrder α] (d x : α) (rest : List α) :
    ∃ m, idxmaxS d (x :: rest) = some m := by
  cases hm : idxmaxS d rest with
  | none =>
    refine ⟨0, ?_⟩
    simp only [idxmaxS, hm]
  | some j =>
    by_cases hx : x < rest.getD j d
    · refine ⟨j + 1, ?_⟩
      simp only [idxmaxS, hm]
      rw [if_pos hx]
    · refine ⟨0, ?_⟩
      simp only [idxmaxS, hm]
      rw [if_neg hx]

/-- The index returned by `idxmax` is in range. -/
lemma idxmaxS_lt_length {α : Type} [LinearOrder α] (d : α) (xs : List α) :
    ∀ i : ℕ, idxmaxS d xs = some i → i < xs.length := by
  induction xs with
  | nil => intro i h; simp [idxmaxS] at h
  | cons x rest ih =>
    intro i h
    cases hm : idxmaxS d rest with
    | none =>
      simp only [idxmaxS, hm, Option.some.injEq] at h
      subst h
      simp only [List.length_cons]
      omega
    | some j =>
      have hj := ih j hm
      simp only [idxmaxS, hm] at h
      split at h <;> simp only [Option.some.injEq] at h <;> subst h <;>
        simp only [List.length_cons] <;> omega

/-- The value at the index returned by `idxmax` is maximal. -/
lemma idxmaxS_getD_le {α : Type} [LinearOrder α] (d : α) (xs : List α) :
    ∀ i : ℕ, idxmaxS d xs = some i → ∀ k, k < xs.length → xs.getD k d ≤ xs.getD i d := by
  induction xs with
  | nil => intro i h; simp [idxmaxS] at h
  | cons x rest ih =>
    intro i h k hk
    cases hm : idxmaxS d rest with
    | none =>
      have hrest : rest = [] := by
        cases rest with
        | nil => rfl
        | cons y t =>
          obtain ⟨m, hm2⟩ := idxmaxS_cons_isSome d y t
          rw [hm2] at hm
          cases hm
      subst hrest
      simp only [idxmaxS, Option.some.injEq] at h
      subst h
      have hk0 : k = 0 := by
        simp only [List.length_cons, List.length_nil] at hk
        omega
      subst hk0
      exact le_refl _
    | some j =>
      simp only [idxmaxS, hm] at h
      split at h
      case isTrue hlt =>
        simp only [Option.some.injEq] at h
        subst h
        cases k with
        | zero =>
          simpa only [List.getD_cons_zero, List.getD_cons_succ] using le_of_lt hlt
        | succ kk =>
          simp only [List.getD_cons_succ]
          exact ih j hm kk (by simp only [List.length_cons] at hk; omega)
      case isFalse hge =>
        simp only [Option.some.injEq] at h
        subst h
        cases k with
        | zero => simp only [List.getD_cons_zero]; exact le_refl _
        | succ kk =>
          simp only [List.getD_cons_succ, List.getD_cons_zero]
          exact le_trans (ih j hm kk (by simp only [List.length_cons] at hk; omega))
            (not_lt.mp hge)

/-- Every entry strictly before the index returned by `idxmax` is strictly
below the maximum: `idxmax` picks the first occurrence of the maximum. -/
lemma idxmaxS_getD_first {α : Type} [LinearOrder α] (d : α) (xs : List α) :
    ∀ i : ℕ, idxmaxS d xs = some i → ∀ k, k < i → xs.getD k d < xs.getD i d := by
  induction xs with
  | nil => intro i h; simp [idxmaxS] at h
  | cons x rest ih =>
    intro i h k hk
    cases hm : idxmaxS d rest with
    | none =>
      simp only [idxmaxS, hm, Option.some.injEq] at h
      subst h
      exact absurd hk (Nat.not_lt_zero k)
    | some j =>
      simp only [idxmaxS, hm] at h
      split at h
      case isTrue hlt =>
        simp only [Option.some.injEq] at h
        subst h
        cases k with
        | zero => simpa only [List.getD_cons_zero, List.getD_cons_succ] using hlt
        | succ kk =>
          simp only [List.getD_cons_succ]
          exact ih j hm kk (by omega)
      case isFalse =>
        simp only [Option.some.injEq] at h
        subst h
        exact absurd hk (Nat.not_lt_zero k)

/-- The index returned by `idxmax` is the unique "first index attaining the
maximum". -/
lemma idxmaxS_unique {α : Type} [LinearOrder α] (d : α) (xs : List α) (i j : ℕ)
    (hi : idxmaxS d xs = some i) (hjlen : j < xs.length)
    (hmax : ∀ k, k < xs.length → xs.getD k d ≤ xs.getD j d)
    (hfirst : ∀ k, k < j → xs.getD k d < xs.getD j d) : i = j := by
  rcases lt_trichotomy i j with h | h | h
  · have h1 := hfirst i h
    have h2 := idxmaxS_getD_le d xs i hi j hjlen
    exact absurd h1 (not_lt.mpr h2)
  · exact h
  · have h1 := idxmaxS_getD_first d xs i hi j h
    have h2 := hmax i (idxmaxS_lt_length d xs i hi)
    exact absurd h1 (not_lt.mpr h2)

/-- Nothing is strictly greater than positive infinity. -/
lemma pgt_inf_false (v : PVal) : pgt v PVal.inf = false := by
  cases v <;> rfl

/-- On a float series, `idxmax` returns the first index holding `inf`
whenever no earlier entry is `inf`: an infinite efficiency always wins, ties
broken by input order. -/
lemma idxmaxP_inf_first (xs : List PVal) :
    ∀ j : ℕ, j < xs.length → xs.getD j PVal.nan = PVal.inf →
      (∀ k, k < j → xs.getD k PVal.nan ≠ PVal.inf) → idxmaxP xs = some j := by
  induction xs with
  | nil => intro j hj; simp at hj
  | cons x rest ih =>
    intro j hj hinf hfirst
    cases j with
    | zero =>
      rw [List.getD_cons_zero] at hinf
      subst hinf
      cases hm : idxmaxP rest with
      | none =>
        simp only [idxmaxP, hm]
        rw [if_neg (by intro hh; cases hh)]
      | some jj =>
        simp only [idxmaxP, hm]
        rw [if_neg (by intro hh; cases hh)]
        rw [pgt_inf_false, if_neg (by simp)]
    | succ m =>
      have hx0 : x ≠ PVal.inf := by
        have h0 := hfirst 0 (Nat.succ_pos m)
        simpa only [List.getD_cons_zero] using h0
      have hrest : idxmaxP rest = some m := by
        refine ih m ?_ ?_ ?_
        · simp only [List.length_cons] at hj; omega
        · simpa only [List.getD_cons_succ] using hinf
        · intro k hk
          have hh := hfirst (k + 1) (by omega)
          simpa only [List.getD_cons_succ] using hh
      by_cases hnan : x = PVal.nan
      · simp only [idxmaxP, hrest]
        rw [if_pos hnan]
      · have hgt : pgt (rest.getD m PVal.nan) x = true := by
          have hi : rest.getD m PVal.nan = PVal.inf := by
            simpa only [List.getD_cons_succ] using hinf
          rw [hi]
          cases x with
          | fin a => rfl
          | inf => exact absurd rfl hx0
          | nan => exact absurd rfl hnan
        simp only [idxmaxP, hrest]
        rw [if_neg hnan, if_pos hgt]

/-- The `ROAS_Proxy` entry at a valid index is the division of that row's
`Conversions` by its `Spend`. -/
lemma roasCol_getD (t : Table) (k : ℕ) (hk : k < t.rows.length) :
    (roasCol t).getD k PVal.nan =
      pdiv (t.rows.getD k dRow).Conversions (t.rows.getD k dRow).Spend := by
  unfold roasCol
  rw [List.getD_eq_getElem?_getD, List.getElem?_map, List.getElem?_eq_getElem hk]
  rw [List.getD_eq_getElem?_getD, List.getElem?_eq_getElem hk]
  simp

/-- The division is infinite exactly on zero spend with non-zero
conversions. -/
lemma pdiv_eq_inf (c : ℕ) (s : ℚ) : pdiv c s = PVal.inf ↔ s = 0 ∧ c ≠ 0 := by
  unfold pdiv
  split
  case isTrue h =>
    split
    case isTrue h2 => simp [h, h2]
    case isFalse h2 => simp [h, h2]
  case isFalse h => simp [h]

/-! ### Helper lemmas about the control flow of `analyze_campaign_data` -/

/-- With a required column missing, the body returns at line 26. -/
lemma tryBody_of_invalid (t : Table) (hv : validateB t = false) :
    tryBody t = (t, TryOutcome.ret (none, some AnalyzeError.missingColumns)) := by
  unfold tryBody
  rw [hv]
  simp

/-- With all rows lacking (the empty table), `idxmax` on `Conversions`
raises. -/
lemma tryBody_of_argmax_none (t : Table) (hv : validateB t = true)
    (h2 : idxmaxS 0 (convList t) = none) :
    tryBody t = (attachRoas t, TryOutcome.exc argmaxEmptyMsg) := by
  unfold tryBody
  rw [hv, h2]
  simp

/-- With `Campaign_Name` missing, the row access of line 41 raises
`KeyError`. -/
lemma tryBody_of_noCampaign (t : Table) (hv : validateB t = true) (i : ℕ)
    (h2 : idxmaxS 0 (convList t) = some i) (hc : "Campaign_Name" ∉ t.cols) :
    tryBody t = (attachRoas t, TryOutcome.exc keyErrCampaign) := by
  unfold tryBody
  rw [hv, h2]
  simp [hc]

/-- With an all-NaN proxy column (only reachable with non-empty rows, since
the `Conversions` `idxmax` of line 41 ran first), the `ROAS_Proxy` selection
raises the all-NA failure. -/
lemma tryBody_of_roasNone (t : Table) (hv : validateB t = true) (i : ℕ)
    (h2 : idxmaxS 0 (convList t) = some i) (hc : "Campaign_Name" ∈ t.cols)
    (h3 : idxmaxP (roasCol t) = none) :
    tryBody t = (attachRoas t, TryOutcome.exc allNaMsg) := by
  unfold tryBody
  rw [hv, h2, h3]
  simp [hc]

/-- With `Platform` missing, the row access of line 42 raises `KeyError`. -/
lemma tryBody_of_noPlatform (t : Table) (hv : validateB t = true) (i j : ℕ)
    (h2 : idxmaxS 0 (convList t) = some i) (hc : "Campaign_Name" ∈ t.cols)
    (h3 : idxmaxP (roasCol t) = some j) (hp : "Platform" ∉ t.cols) :
    tryBody t = (attachRoas t, TryOutcome.exc keyErrPlatform) := by
  unfold tryBody
  rw [hv, h2, h3]
  simp [hc, hp]

/-- The successful path builds the stats dict of lines 44–51. -/
lemma tryBody_of_success (t : Table) (hv : validateB t = true) (i j : ℕ)
    (h2 : idxmaxS 0 (convList t) = some i) (hc : "Campaign_Name" ∈ t.cols)
    (h3 : idxmaxP (roasCol t) = some j) (hp : "Platform" ∈ t.cols) :
    tryBody t = (attachRoas t,
      TryOutcome.ret
        (some (mkStats (total_spend t) (total_conversions t) (ctr t) (cpa t)
          ((t.rows.getD i dRow).Campaign_Name) ((t.rows.getD j dRow).Platform)),
         none)) := by
  unfold tryBody
  rw [hv, h2, h3]
  simp [hc, hp]

/-- If every required column is present, validation passes. -/
lemma validateB_of_all (t : Table) (h : ∀ c ∈ requiredCols, c ∈ t.cols) :
    validateB t = true := by
  unfold validateB
  rw [List.all_eq_true]
  intro c hc
  exact decide_eq_true (h c hc)

/-- If some required column is absent, validation fails. -/
lemma validateB_of_missing (t : Table) (c : String) (hc : c ∈ requiredCols)
    (hnc : c ∉ t.cols) : validateB t = false := by
  rw [Bool.eq_false_iff]
  intro hb
  unfold validateB at hb
  rw [List.all_eq_true] at hb
  exact hnc (of_decide_eq_true (hb c hc))

/-- Inversion of a successful run: validation passed, both name columns are
present, both `idxmax` calls succeeded, and the returned dict is the literal
of lines 44–51 at those indices. -/
lemma analyze_success_inv (t : Table) (d : StatsDict)
    (h : (analyze_campaign_data t).2.1 = some d) :
    validateB t = true ∧ "Campaign_Name" ∈ t.cols ∧ "Platform" ∈ t.cols ∧
    ∃ i j, idxmaxS 0 (convList t) = some i ∧ idxmaxP (roasCol t) = some j ∧
      d = mkStats (total_spend t) (total_conversions t) (ctr t) (cpa t)
            ((t.rows.getD i dRow).Campaign_Name) ((t.rows.getD j dRow).Platform) := by
  by_cases hv : validateB t = true
  · cases h2 : idxmaxS 0 (convList t) with
    | none =>
      unfold analyze_campaign_data at h
      rw [tryBody_of_argmax_none t hv h2] at h
      simp [wrapExcept] at h
    | some i =>
      by_cases hc : "Campaign_Name" ∈ t.cols
      · cases h3 : idxmaxP (roasCol t) with
        | none =>
          unfold analyze_campaign_data at h
          rw [tryBody_of_roasNone t hv i h2 hc h3] at h
          simp [wrapExcept] at h
        | some j =>
          by_cases hp : "Platform" ∈ t.cols
          · unfold analyze_campaign_data at h
            rw [tryBody_of_success t hv i j h2 hc h3 hp] at h
            simp only [wrapExcept, Option.some.injEq] at h
            exact ⟨hv, hc, hp, i, j, rfl, rfl, h.symm⟩
          · unfold analyze_campaign_data at h
            rw [tryBody_of_noPlatform t hv i j h2 hc h3 hp] at h
            simp [wrapExcept] at h
      · unfold analyze_campaign_data at h
        rw [tryBody_of_noCampaign t hv i h2 hc] at h
        simp [wrapExcept] at h
  · have hv' : validateB t = false := by
      rw [Bool.eq_false_iff]
      exact hv
    unfold analyze_campaign_data at h
    rw [tryBody_of_invalid t hv'] at h
    simp [wrapExcept] at h

/-- Looking up `Top Campaign` in the stats dict. -/
lemma lookup_topCampaign (ts : ℚ) (tc : ℕ) (c a : ℚ) (top best : String) :
    List.lookup "Top Campaign" (mkStats ts tc c a top best) = some (CellVal.str top) := rfl

/-- Looking up `Best Platform` in the stats dict. -/
lemma lookup_bestPlatform (ts : ℚ) (tc : ℕ) (c a : ℚ) (top best : String) :
    List.lookup "Best Platform" (mkStats ts tc c a top best) = some (CellVal.str best) := rfl

/-- The keys of the stats dict, in insertion order. -/
lemma keys_mkStats (ts : ℚ) (tc : ℕ) (c a : ℚ) (top best : String) :
    (mkStats ts tc c a top best).map Prod.fst =
      ["Total Spend", "Total Conversions", "Global CTR", "Avg CPA",
       "Top Campaign", "Best Platform"] := rfl

/-! ### Claim C3 -/

/-- C3: for every table with the required columns, the derived metrics are
total functions with the zero-guard policy: a zero total denominator yields
`0`, a positive one yields the exact ratio (`CTR = 100 * clicks/impressions`,
`CPA = spend/conversions`, `CPC = spend/clicks`); no division fault can
occur. -/
theorem C3_derived_metrics (t : Table) (_hv : validateB t = true) :
    (total_impressions t = 0 → ctr t = 0) ∧
    (total_impressions t ≠ 0 →
      ctr t = 100 * (total_clicks t : ℚ) / (total_impressions t : ℚ)) ∧
    (total_conversions t = 0 → cpa t = 0) ∧
    (total_conversions t ≠ 0 → cpa t = total_spend t / (total_conversions t : ℚ)) ∧
    (total_clicks t = 0 → cpc t = 0) ∧
    (total_clicks t ≠ 0 → cpc t = total_spend t / (total_clicks t : ℚ)) := by
  refine ⟨?_, ?_, ?_, ?_, ?_, ?_⟩
  · intro h; simp [ctr, h]
  · intro h
    unfold ctr
    rw [if_pos (Nat.pos_of_ne_zero h)]
    ring
  · intro h; simp [cpa, h]
  · intro h
    unfold cpa
    rw [if_pos (Nat.pos_of_ne_zero h)]
  · intro h; simp [cpc, h]
  · intro h
    unfold cpc
    rw [if_pos (Nat.pos_of_ne_zero h)]

/-- C3 witness: on the all-zero one-row table all three metrics are `0`. -/
theorem C3_witness : ctr tAllNan = 0 ∧ cpa tAllNan = 0 ∧ cpc tAllNan = 0 := by
  have h := C3_derived_metrics tAllNan (by decide)
  exact ⟨h.1 (by decide), h.2.2.1 (by decide), h.2.2.2.2.1 (by decide)⟩

/-! ### Claim C4 -/

/-- C4: a table missing one of the four required columns makes
`analyze_campaign_data` return `(None, MissingColumnsError)` at line 26,
producing no stats and leaving the table untouched. -/
theorem C4_missing_columns (t : Table) (h : ∃ c, c ∈ requiredCols ∧ c ∉ t.cols) :
    analyze_campaign_data t = (t, (none, some AnalyzeError.missingColumns)) := by
  obtain ⟨c, hc, hnc⟩ := h
  have hv := validateB_of_missing t c hc hnc
  unfold analyze_campaign_data
  rw [tryBody_of_invalid t hv]
  rfl

/-- C4 witness: a header without `Spend`. -/
theorem C4_witness :
    analyze_campaign_data tMissing = (tMissing, (none, some AnalyzeError.missingColumns)) :=
  C4_missing_columns tMissing ⟨"Spend", by decide, by decide⟩

/-! ### Claim C9 -/

/-- C9: the call never changes the header or the row values of the caller's
table; the post-call table is either the input unchanged (validation
failure) or the input with only the transient `ROAS_Proxy` column
attached. -/
theorem C9_no_mutation (t : Table) :
    ((analyze_campaign_data t).1.cols = t.cols ∧
     (analyze_campaign_data t).1.rows = t.rows) ∧
    ((analyze_campaign_data t).1 = t ∨ (analyze_campaign_data t).1 = attachRoas t) := by
  have hfst : (analyze_campaign_data t).1 = (tryBody t).1 := rfl
  by_cases hv : validateB t = true
  · have hattach : (tryBody t).1 = attachRoas t := by
      cases h2 : idxmaxS 0 (convList t) with
      | none => rw [tryBody_of_argmax_none t hv h2]
      | some i =>
        by_cases hc : "Campaign_Name" ∈ t.cols
        · cases h3 : idxmaxP (roasCol t) with
          | none => rw [tryBody_of_roasNone t hv i h2 hc h3]
          | some j =>
            by_cases hp : "Platform" ∈ t.cols
            · rw [tryBody_of_success t hv i j h2 hc h3 hp]
            · rw [tryBody_of_noPlatform t hv i j h2 hc h3 hp]
        · rw [tryBody_of_noCampaign t hv i h2 hc]
    rw [hfst, hattach]
    exact ⟨⟨rfl, rfl⟩, Or.inr rfl⟩
  · have hv' : validateB t = false := by
      rw [Bool.eq_false_iff]
      exact hv
    rw [hfst, tryBody_of_invalid t hv']
    exact ⟨⟨rfl, rfl⟩, Or.inl rfl⟩

/-! ### Claim C10 -/

/-- C10: validation checks only the four numeric columns; with those present
but `Campaign_Name` or `Platform` absent, the call passes validation and
ends in the generic processing error raised during selection, never in the
missing-columns error. -/
theorem C10_validation_scope (t : Table) (hreq : ∀ c ∈ requiredCols, c ∈ t.cols)
    (hmiss : "Campaign_Name" ∉ t.cols ∨ "Platform" ∉ t.cols) :
    (analyze_campaign_data t).2.1 = none ∧
    ∃ c, (analyze_campaign_data t).2.2 = some (AnalyzeError.processingError c) := by
  have hv := validateB_of_all t hreq
  unfold analyze_campaign_data
  cases h2 : idxmaxS 0 (convList t) with
  | none =>
    rw [tryBody_of_argmax_none t hv h2]
    exact ⟨rfl, argmaxEmptyMsg, rfl⟩
  | some i =>
    by_cases hc : "Campaign_Name" ∈ t.cols
    · have hp : "Platform" ∉ t.cols := by
        cases hmiss with
        | inl h => exact absurd hc h
        | inr h => exact h
      cases h3 : idxmaxP (roasCol t) with
      | none =>
        rw [tryBody_of_roasNone t hv i h2 hc h3]
        exact ⟨rfl, allNaMsg, rfl⟩
      | some j =>
        rw [tryBody_of_noPlatform t hv i j h2 hc h3 hp]
        exact ⟨rfl, keyErrPlatform, rfl⟩
    · rw [tryBody_of_noCampaign t hv i h2 hc]
      exact ⟨rfl, keyErrCampaign, rfl⟩

/-- C10 witness: four numeric columns only, one row. -/
theorem C10_witness :
    (analyze_campaign_data tNoName).2.1 = none ∧
    ∃ c, (analyze_campaign_data tNoName).2.2 = some (AnalyzeError.processingError c) :=
  C10_validation_scope tNoName (by decide) (Or.inl (by decide))

/-! ### Claim C7 -/

/-- C7: on a successful run, `Top Campaign` is the `Campaign_Name` of the
first row (in input order) attaining the maximal `Conversions` value; the
function is deterministic, so repeated runs on the same input agree. -/
theorem C7_tie_break (t : Table) (d : StatsDict)
    (h : (analyze_campaign_data t).2.1 = some d) (j : ℕ)
    (hjlen : j < (convList t).length)
    (hmax : ∀ k, k < (convList t).length → (convList t).getD k 0 ≤ (convList t).getD j 0)
    (hfirst : ∀ k, k < j → (convList t).getD k 0 < (convList t).getD j 0) :
    List.lookup "Top Campaign" d =
      some (CellVal.str ((t.rows.getD j dRow).Campaign_Name)) := by
  obtain ⟨hv, hc, hp, i, j2, hi, hj2, hd⟩ := analyze_success_inv t d h
  have hij : i = j := idxmaxS_unique 0 (convList t) i j hi hjlen hmax hfirst
  subst hij
  subst hd
  exact lookup_topCampaign _ _ _ _ _ _

/-- C7 witness: two rows tied at `Conversions = 7`; the first row's name is
chosen. -/
theorem C7_witness : List.lookup "Top Campaign" dTie = some (CellVal.str "A") :=
  C7_tie_break tTie dTie (by with_unfolding_all rfl) 0 (by decide) (by decide)
    (by decide)

/-! ### Claim C1 -/

/-- C1 counterexample: on `tC1a` one record has positive spend (`100`), yet
the selected `Best Platform` is `Y`, the platform only of the zero-spend
record; on `tC1b` every record has zero spend, yet the selected platform is
`B`, not the first record's platform `A`.  Both halves of the claim fail on
the code. -/
theorem C1_counterexample :
    ((analyze_campaign_data tC1a).2.1 = some dC1 ∧
     List.lookup "Best Platform" dC1 = some (CellVal.str "Y") ∧
     (∃ r ∈ tC1a.rows, 0 < r.Spend) ∧
     (∀ r ∈ tC1a.rows, r.Platform = "Y" → r.Spend = 0)) ∧
    ((analyze_campaign_data tC1b).2.1 = some dC1b ∧
     List.lookup "Best Platform" dC1b = some (CellVal.str "B") ∧
     (∀ r ∈ tC1b.rows, r.Spend = 0) ∧
     (tC1b.rows.getD 0 dRow).Platform = "A" ∧
     ("B" : String) ≠ "A") := by
  with_unfolding_all decide

/-- C1 (amended): a zero-spend record with positive conversions receives an
infinite efficiency proxy and always wins the best-platform selection: on a
successful run, `Best Platform` is the `Platform` of the first record with
`Spend = 0` and `Conversions != 0`, whenever such a record exists. -/
theorem C1_zero_spend_wins (t : Table) (d : StatsDict)
    (h : (analyze_campaign_data t).2.1 = some d) (j : ℕ)
    (hjlen : j < t.rows.length)
    (hzero : (t.rows.getD j dRow).Spend = 0 ∧ (t.rows.getD j dRow).Conversions ≠ 0)
    (hfirst : ∀ k, k < j →
      ¬((t.rows.getD k dRow).Spend = 0 ∧ (t.rows.getD k dRow).Conversions ≠ 0)) :
    List.lookup "Best Platform" d =
      some (CellVal.str ((t.rows.getD j dRow).Platform)) := by
  obtain ⟨hv, hc, hp, i, j2, hi, hj2, hd⟩ := analyze_success_inv t d h
  have hlen2 : j < (roasCol t).length := by
    unfold roasCol
    rw [List.length_map]
    exact hjlen
  have hinf : (roasCol t).getD j PVal.nan = PVal.inf := by
    rw [roasCol_getD t j hjlen]
    exact (pdiv_eq_inf _ _).mpr ⟨hzero.1, hzero.2⟩
  have hfirstInf : ∀ k, k < j → (roasCol t).getD k PVal.nan ≠ PVal.inf := by
    intro k hk
    rw [roasCol_getD t k (lt_trans hk hjlen), Ne, pdiv_eq_inf]
    intro hcontra
    exact hfirst k hk ⟨hcontra.1, hcontra.2⟩
  have hJ : idxmaxP (roasCol t) = some j :=
    idxmaxP_inf_first (roasCol t) j hlen2 hinf hfirstInf
  rw [hj2] at hJ
  have hjj : j2 = j := Option.some.inj hJ
  subst hjj
  subst hd
  exact lookup_bestPlatform _ _ _ _ _ _

/-- C1 witness: on `tC1a` the zero-spend record at index `1` wins. -/
theorem C1_witness : List.lookup "Best Platform" dC1 = some (CellVal.str "Y") :=
  C1_zero_spend_wins tC1a dC1 (by with_unfolding_all rfl) 1 (by decide)
    (by with_unfolding_all decide) (by with_unfolding_all decide)

/-! ### Claim C2 -/

/-- C2 counterexample: on the empty table the selection failure is reported
through the generic catch-all `processingError` constructor — the same
error kind that carries an ordinary `KeyError` cause for a different,
non-empty table — and never through a dedicated empty-table error value:
the error type of the code has no such value. -/
theorem C2_counterexample :
    (analyze_campaign_data tEmpty).2 =
      (none, some (AnalyzeError.processingError argmaxEmptyMsg)) ∧
    (analyze_campaign_data tNoName).2.2 =
      some (AnalyzeError.processingError keyErrCampaign) ∧
    tEmpty.rows = [] ∧ tNoName.rows ≠ [] := by
  with_unfolding_all decide

/-- C2 (amended): on the empty table with the required columns, the
selection step fails and `analyze_campaign_data` returns no stats and the
generic catch-all processing error wrapping the argmax-of-empty cause — not
a distinct empty-table error value, which the code does not have;
aggregation is reached and all four column sums are zero. -/
theorem C2_empty_table (t : Table) (hreq : ∀ c ∈ requiredCols, c ∈ t.cols)
    (hempty : t.rows = []) :
    (analyze_campaign_data t).2 =
      (none, some (AnalyzeError.processingError argmaxEmptyMsg)) ∧
    total_spend t = 0 ∧ total_clicks t = 0 ∧
    total_conversions t = 0 ∧ total_impressions t = 0 := by
  have hv := validateB_of_all t hreq
  have h2 : idxmaxS 0 (convList t) = none := by
    unfold convList
    rw [hempty]
    rfl
  constructor
  · unfold analyze_campaign_data
    rw [tryBody_of_argmax_none t hv h2]
    rfl
  · unfold total_spend total_clicks total_conversions total_impressions
    rw [hempty]
    simp

/-- C2 witness: the concrete empty table. -/
theorem C2_witness :
    (analyze_campaign_data tEmpty).2 =
      (none, some (AnalyzeError.processingError argmaxEmptyMsg)) ∧
    total_spend tEmpty = 0 ∧ total_clicks tEmpty = 0 ∧
    total_conversions tEmpty = 0 ∧ total_impressions tEmpty = 0 :=
  C2_empty_table tEmpty (by decide) rfl

/-! ### Claim C5 -/

/-- C5 counterexample: on the specification's own worked scenario the
returned mapping has exactly six keys — `Avg CPC` is absent — and its
numeric fields are formatted strings (`"$150.00"`, `"5.00%"`), not raw
numbers. -/
theorem C5_counterexample :
    (analyze_campaign_data tS).2.1 = some dS ∧
    dS.map Prod.fst = ["Total Spend", "Total Conversions", "Global CTR",
      "Avg CPA", "Top Campaign", "Best Platform"] ∧
    List.lookup "Avg CPC" dS = none ∧
    List.lookup "AvgCPC" dS = none ∧
    dS.length = 6 ∧
    List.lookup "Total Spend" dS = some (CellVal.str "$150.00") ∧
    List.lookup "Global CTR" dS = some (CellVal.str "5.00%") := by
  with_unfolding_all decide

/-- C5 (amended): every successful run returns a mapping with exactly the
six keys `Total Spend, Total Conversions, Global CTR, Avg CPA, Top
Campaign, Best Platform` (no CPC key), and every value — the numeric fields
included — is a formatted string. -/
theorem C5_output_shape (t : Table) (d : StatsDict)
    (h : (analyze_campaign_data t).2.1 = some d) :
    d.map Prod.fst = ["Total Spend", "Total Conversions", "Global CTR",
      "Avg CPA", "Top Campaign", "Best Platform"] ∧
    ∀ kv ∈ d, ∃ s, kv.2 = CellVal.str s := by
  obtain ⟨_, _, _, i, j, _, _, hd⟩ := analyze_success_inv t d h
  subst hd
  refine ⟨keys_mkStats _ _ _ _ _ _, ?_⟩
  intro kv hkv
  simp only [mkStats, List.mem_cons, List.not_mem_nil, or_false] at hkv
  rcases hkv with h1 | h1 | h1 | h1 | h1 | h1 <;> exact ⟨_, by subst h1; rfl⟩

/-- C5 witness: the scenario table's output shape. -/
theorem C5_witness :
    dS.map Prod.fst = ["Total Spend", "Total Conversions", "Global CTR",
      "Avg CPA", "Top Campaign", "Best Platform"] ∧
    ∀ kv ∈ dS, ∃ s, kv.2 = CellVal.str s :=
  C5_output_shape tS dS (by with_unfolding_all rfl)

/-! ### Claim C8 -/

/-- C8: `analyze_campaign_data` never lets an exception escape: every run
returns either `(none, some error)` or `(some stats, none)`; and any
exception raised inside the body is caught by the handler of lines 54–55
and reported as the generic processing error carrying the underlying
cause in its message. -/
theorem C8_error_propagation (t : Table) :
    ((∃ err, (analyze_campaign_data t).2 = (none, some err)) ∨
     (∃ d, (analyze_campaign_data t).2 = (some d, none))) ∧
    (∀ e, (tryBody t).2 = TryOutcome.exc e →
      (analyze_campaign_data t).2 = (none, some (AnalyzeError.processingError e)) ∧
      (AnalyzeError.processingError e).message = "Data Processing Error: " ++ e) := by
  constructor
  · by_cases hv : validateB t = true
    · cases h2 : idxmaxS 0 (convList t) with
      | none =>
        refine Or.inl ⟨AnalyzeError.processingError argmaxEmptyMsg, ?_⟩
        unfold analyze_campaign_data
        rw [tryBody_of_argmax_none t hv h2]
        rfl
      | some i =>
        by_cases hc : "Campaign_Name" ∈ t.cols
        · cases h3 : idxmaxP (roasCol t) with
          | none =>
            refine Or.inl ⟨AnalyzeError.processingError allNaMsg, ?_⟩
            unfold analyze_campaign_data
            rw [tryBody_of_roasNone t hv i h2 hc h3]
            rfl
          | some j =>
            by_cases hp : "Platform" ∈ t.cols
            · refine Or.inr ⟨mkStats (total_spend t) (total_conversions t) (ctr t)
                (cpa t) ((t.rows.getD i dRow).Campaign_Name)
                ((t.rows.getD j dRow).Platform), ?_⟩
              unfold analyze_campaign_data
              rw [tryBody_of_success t hv i j h2 hc h3 hp]
              rfl
            · refine Or.inl ⟨AnalyzeError.processingError keyErrPlatform, ?_⟩
              unfold analyze_campaign_data
              rw [tryBody_of_noPlatform t hv i j h2 hc h3 hp]
              rfl
        · refine Or.inl ⟨AnalyzeError.processingError keyErrCampaign, ?_⟩
          unfold analyze_campaign_data
          rw [tryBody_of_noCampaign t hv i h2 hc]
          rfl
    · have hv' : validateB t = false := by
        rw [Bool.eq_false_iff]
        exact hv
      refine Or.inl ⟨AnalyzeError.missingColumns, ?_⟩
      unfold analyze_campaign_data
      rw [tryBody_of_invalid t hv']
      rfl
  · intro e he
    refine ⟨?_, rfl⟩
    unfold analyze_campaign_data
    rw [he]
    rfl

/-- C8 witness: on the empty table the raised argmax exception is returned
as the generic processing error with its cause in the message. -/
theorem C8_witness :
    (analyze_campaign_data tEmpty).2 =
      (none, some (AnalyzeError.processingError argmaxEmptyMsg)) ∧
    (AnalyzeError.processingError argmaxEmptyMsg).message =
      "Data Processing Error: " ++ argmaxEmptyMsg :=
  (C8_error_propagation tEmpty).2 argmaxEmptyMsg (by with_unfolding_all rfl)
